import Mathlib

/-!
Shallow embedding of the oneshot-channel family from
`src/channels/{safer_oneshot,unsafe_oneshot,compile_time_oneshot,mutex_based}.rs`.

Each Rust channel is modelled as a Lean structure; the `UnsafeCell<MaybeUninit<T>>`
slot becomes an `Option T` (`none` = uninitialized bits, `some v` = the slot holds
the bit pattern of `v`), and each `AtomicBool` becomes a `Bool`.  Operations are
modelled sequentially as explicit state-passing functions: a method taking `&self`
and mutating atomics returns the updated channel state together with its result.
A Rust `panic!` is modelled as returning a `PanicMsg` value; reading the slot while
uninitialized (`assume_init_read` on uninit storage, undefined behavior) is modelled
by the dedicated `RecvResult.ub` outcome.
-/

/-- The two panic messages the channel family can raise.
`secondSend` models the runtime-checked variant panicking in `send` when the
`in_use` swap observes `true` (the source message says more than one message
cannot be sent); `noMessageAvailable` models the panic "No message available!"
raised by `receive` when the ready swap observes `false`. -/
inductive PanicMsg where
  | secondSend
  | noMessageAvailable
  deriving DecidableEq, Repr

/-- Outcome of a `receive` call: a value, a panic, or undefined behavior
(the slot was read while uninitialized). -/
inductive RecvResult (T : Type) where
  | ok : T → RecvResult T
  | panicked : PanicMsg → RecvResult T
  | ub : RecvResult T
  deriving DecidableEq, Repr

namespace SaferOneshot

/-- `safer_oneshot::Channel<T>`: slot, `in_use` claimed flag, `ready` flag. -/
structure Channel (T : Type) where
  message : Option T
  in_use : Bool
  ready : Bool
  deriving DecidableEq, Repr

/-- `Channel::new`: empty slot, both flags `false`. -/
def Channel.new (T : Type) : Channel T :=
  { message := none, in_use := false, ready := false }

/-- `Channel::send`: `in_use.swap(true, Relaxed)`; if the old value was `true`,
panic (second send) with the state as left by the swap; otherwise write the
message into the slot and `ready.store(true, Release)`.  Returns the channel
state after the call and `some msg` exactly when the call panicked. -/
def Channel.send (c : Channel T) (m : T) : Channel T × Option PanicMsg :=
  if c.in_use then
    ({ c with in_use := true }, some PanicMsg.secondSend)
  else
    ({ message := some m, in_use := true, ready := true }, none)

/-- `Channel::is_ready`: a relaxed load of the `ready` flag. -/
def Channel.is_ready (c : Channel T) : Bool :=
  c.ready

/-- `Channel::receive`: `ready.swap(false, Acquire)` unconditionally resets
the flag; if the swap returned `false`, panic "No message available!";
otherwise `assume_init_read` the slot (a bitwise copy: the slot keeps its
bits).  Returns the state after the call together with the outcome. -/
def Channel.receive (c : Channel T) : Channel T × RecvResult T :=
  ({ c with ready := false },
   if c.ready then
     match c.message with
     | some v => RecvResult.ok v
     | none => RecvResult.ub
   else
     RecvResult.panicked PanicMsg.noMessageAvailable)

/-- `impl Drop for Channel`: at teardown, if `*ready.get_mut()` then
`assume_init_drop` the slot.  Returns how many times the stored value gets
its destructor run by the teardown. -/
def Channel.dropCount (c : Channel T) : Nat :=
  if c.ready then 1 else 0

/-- The public operations a user can issue on a shared `&Channel`. -/
inductive Op (T : Type) where
  | send : T → Op T
  | receive : Op T
  | isReady : Op T

/-- The state effect of one public operation. -/
def Channel.step (c : Channel T) (o : Op T) : Channel T :=
  match o with
  | Op.send m => (c.send m).1
  | Op.receive => c.receive.1
  | Op.isReady => c

/-- The channel state after a sequence of public operations. -/
def Channel.run (c : Channel T) (ops : List (Op T)) : Channel T :=
  ops.foldl Channel.step c

/-- The data invariant of the runtime-checked channel: whenever the `ready`
flag is set, the slot holds an initialized value. -/
def Channel.inv (c : Channel T) : Bool :=
  !c.ready || c.message.isSome

end SaferOneshot

namespace UnsafeOneshot

/-- `unsafe_oneshot::Channel<T>`: slot and `ready` flag, no bookkeeping. -/
structure Channel (T : Type) where
  message : Option T
  ready : Bool
  deriving DecidableEq, Repr

/-- `Channel::new`: empty slot, `ready` `false`. -/
def Channel.new (T : Type) : Channel T :=
  { message := none, ready := false }

/-- `unsafe Channel::send`: write the slot, then `ready.store(true, Release)`.
No check of any kind; calling it twice is a caller-contract violation. -/
def Channel.send (c : Channel T) (m : T) : Channel T :=
  { c with message := some m, ready := true }

/-- `Channel::is_ready`: an acquire load of the `ready` flag. -/
def Channel.is_ready (c : Channel T) : Bool :=
  c.ready

/-- `unsafe Channel::receive`: `assume_init_read` of the slot through `&self`;
it writes nothing, in particular it never touches the `ready` flag.  `none`
is the undefined-behavior case of reading an uninitialized slot. -/
def Channel.receive (c : Channel T) : Option T :=
  c.message

end UnsafeOneshot

namespace CompileTimeOneshot

/-- The private `compile_time_oneshot::Channel<T>` held inside the `Arc`:
slot and `ready` flag.  `Sender<T>` and `Receiver<T>` are one-shot capability
handles onto this shared state; since each is consumed by its single operation,
the embedding threads the shared channel state explicitly through the
operations of the handles. -/
structure Channel (T : Type) where
  message : Option T
  ready : Bool
  deriving DecidableEq, Repr

/-- `channel::<T>()`: allocates the shared channel, empty slot, `ready` `false`,
and hands out the `Sender` and `Receiver` capabilities onto it. -/
def channel (T : Type) : Channel T :=
  { message := none, ready := false }

/-- `Sender::send` (consumes the `Sender` by value): write the slot, then
`ready.store(true, Release)`.  No `in_use` check is needed: the type system
guarantees a single call. -/
def Sender.send (c : Channel T) (m : T) : Channel T :=
  { c with message := some m, ready := true }

/-- `Receiver::is_ready` (by reference): a relaxed load of `ready`. -/
def Receiver.is_ready (c : Channel T) : Bool :=
  c.ready

/-- `Receiver::receive` (consumes the `Receiver` by value):
`ready.swap(false, Acquire)` unconditionally resets the flag; panic
"No message available!" if the swap returned `false`, otherwise
`assume_init_read` the slot. -/
def Receiver.receive (c : Channel T) : Channel T × RecvResult T :=
  ({ c with ready := false },
   if c.ready then
     match c.message with
     | some v => RecvResult.ok v
     | none => RecvResult.ub
   else
     RecvResult.panicked PanicMsg.noMessageAvailable)

/-- `impl Drop for Channel`: at teardown (when the `Arc` count reaches zero),
if `*ready.get_mut()` then `assume_init_drop` the slot.  Returns how many
times the stored value gets its destructor run. -/
def Channel.dropCount (c : Channel T) : Nat :=
  if c.ready then 1 else 0

/-- The data invariant of the statically-checked channel: whenever `ready`
is set, the slot holds an initialized value. -/
def Channel.inv (c : Channel T) : Bool :=
  !c.ready || c.message.isSome

end CompileTimeOneshot

namespace MutexBased

/-- `mutex_based::Channel<T>`: a `Mutex<VecDeque<T>>` plus a `Condvar`.  The
mutex-protected deque is modelled as a list, front at the head; the condition
variable has no sequential content. -/
structure Channel (T : Type) where
  queue : List T
  deriving DecidableEq, Repr

/-- `Channel::new`: an empty queue. -/
def Channel.new (T : Type) : Channel T :=
  { queue := [] }

/-- `Channel::send`: lock, `push_back(message)`, unlock, notify.  Always
succeeds (total function, no error outcome). -/
def Channel.send (c : Channel T) (m : T) : Channel T :=
  { queue := c.queue ++ [m] }

/-- `Channel::receive`: lock and `pop_front`; on an empty queue the thread
blocks on the condition variable, modelled as `none`. -/
def Channel.receive (c : Channel T) : Option (T × Channel T) :=
  match c.queue with
  | [] => none
  | m :: rest => some (m, { queue := rest })

/-- Perform a sequence of sends in order. -/
def Channel.sendAll (c : Channel T) (l : List T) : Channel T :=
  l.foldl Channel.send c

end MutexBased

section Helpers

/-- `send` on a channel whose `in_use` flag is already set panics with the
second-send message and leaves the state exactly as it was. -/
theorem SaferOneshot.send_in_use_true {T : Type} (c : SaferOneshot.Channel T) (w : T)
    (h : c.in_use = true) : c.send w = (c, some PanicMsg.secondSend) := by
  obtain ⟨m, u, r⟩ := c
  cases h
  rfl

/-- `receive` on a channel whose `ready` flag is `false` leaves the state
exactly as it was. -/
theorem SaferOneshot.receive_not_ready_state {T : Type} (d : SaferOneshot.Channel T)
    (h : d.ready = false) : d.receive.1 = d := by
  obtain ⟨m, u, r⟩ := d
  cases h
  rfl

/-- No public operation ever resets the `in_use` flag. -/
theorem SaferOneshot.step_in_use {T : Type} (c : SaferOneshot.Channel T)
    (o : SaferOneshot.Op T) (h : c.in_use = true) : (c.step o).in_use = true := by
  cases o with
  | send m =>
    simp only [Channel.step, Channel.send]
    split <;> rfl
  | receive => exact h
  | isReady => exact h

/-- Across any sequence of public operations, a set `in_use` flag stays set. -/
theorem SaferOneshot.run_in_use {T : Type} (ops : List (SaferOneshot.Op T)) :
    ∀ c : SaferOneshot.Channel T, c.in_use = true → (c.run ops).in_use = true := by
  induction ops with
  | nil => intro c h; exact h
  | cons o rest ih => intro c h; exact ih _ (SaferOneshot.step_in_use c o h)

/-- `sendAll` appends the sent values, in order, to the back of the queue. -/
theorem MutexBased.sendAll_queue {T : Type} (l : List T) :
    ∀ c : MutexBased.Channel T, (c.sendAll l).queue = c.queue ++ l := by
  induction l with
  | nil => intro c; simp [MutexBased.Channel.sendAll]
  | cons x xs ih =>
    intro c
    have hstep : c.sendAll (x :: xs) = (c.send x).sendAll xs := rfl
    rw [hstep, ih]
    simp [MutexBased.Channel.send]

end Helpers

/-- Claim C1: for every value `v` and every oneshot variant, on a fresh channel
a single `send v` followed by a correctly-ordered `receive` (performed after
`is_ready` observes `true`) returns exactly `v`. -/
theorem claim_C1_round_trip (T : Type) (v : T) :
    ((SaferOneshot.Channel.new T).send v).1.is_ready = true ∧
    (((SaferOneshot.Channel.new T).send v).1.receive).2 = RecvResult.ok v ∧
    ((UnsafeOneshot.Channel.new T).send v).is_ready = true ∧
    ((UnsafeOneshot.Channel.new T).send v).receive = some v ∧
    CompileTimeOneshot.Receiver.is_ready
      (CompileTimeOneshot.Sender.send (CompileTimeOneshot.channel T) v) = true ∧
    (CompileTimeOneshot.Receiver.receive
      (CompileTimeOneshot.Sender.send (CompileTimeOneshot.channel T) v)).2
      = RecvResult.ok v :=
  ⟨rfl, rfl, rfl, rfl, rfl, rfl⟩

/-- Claim C3: once `send` has been called on a runtime-checked channel, every
later `send` — after any further sequence of public operations — panics with
the second-send error instead of storing the new message, leaving the channel
state untouched; the set `in_use` flag observed by the swap is what detects it. -/
theorem claim_C3_second_send (T : Type) (v w : T) (ops : List (SaferOneshot.Op T)) :
    ((((SaferOneshot.Channel.new T).send v).1.run ops).in_use = true) ∧
    ((((SaferOneshot.Channel.new T).send v).1.run ops).send w).2
      = some PanicMsg.secondSend ∧
    ((((SaferOneshot.Channel.new T).send v).1.run ops).send w).1
      = ((SaferOneshot.Channel.new T).send v).1.run ops := by
  have h1 : (((SaferOneshot.Channel.new T).send v).1).in_use = true := rfl
  have h2 := SaferOneshot.run_in_use ops _ h1
  have h3 := SaferOneshot.send_in_use_true _ w h2
  exact ⟨h2, by rw [h3], by rw [h3]⟩

/-- Claim C5: in the runtime-checked and statically-checked variants, a sent
but never received value is destructed exactly once at channel teardown. -/
theorem claim_C5_drop_unread_once (T : Type) (v : T) :
    (((SaferOneshot.Channel.new T).send v).1).dropCount = 1 ∧
    (CompileTimeOneshot.Sender.send (CompileTimeOneshot.channel T) v).dropCount = 1 :=
  ⟨rfl, rfl⟩

/-- Claim C7: constructing a channel needs no precondition, and in every
variant the fresh channel is not ready: `is_ready` returns `false` before any
send. -/
theorem claim_C7_fresh_not_ready (T : Type) :
    (SaferOneshot.Channel.new T).is_ready = false ∧
    (UnsafeOneshot.Channel.new T).is_ready = false ∧
    CompileTimeOneshot.Receiver.is_ready (CompileTimeOneshot.channel T) = false :=
  ⟨rfl, rfl, rfl⟩

/-- Claim C10: the unchecked variant reads the slot through a shared reference
without touching the `ready` flag, so after `send` then `receive` the flag is
still `true`; the runtime-checked and statically-checked variants instead swap
the flag to `false` in `receive`. -/
theorem claim_C10_unsafe_receive_keeps_ready (T : Type) (v : T) :
    ((UnsafeOneshot.Channel.new T).send v).receive = some v ∧
    ((UnsafeOneshot.Channel.new T).send v).is_ready = true ∧
    (((SaferOneshot.Channel.new T).send v).1.receive).1.is_ready = false ∧
    CompileTimeOneshot.Receiver.is_ready
      ((CompileTimeOneshot.Receiver.receive
        (CompileTimeOneshot.Sender.send (CompileTimeOneshot.channel T) v)).1)
      = false :=
  ⟨rfl, rfl, rfl, rfl⟩

/-- Claim C4: whenever the readiness flag is `false` at the acquire swap —
both before any send and after a previous receive consumed the message —
`receive` panics "No message available!" and never returns a duplicate or
garbage value, in the runtime-checked and statically-checked variants alike. -/
theorem claim_C4_receive_not_ready_panics (T : Type) (v : T)
    (c : SaferOneshot.Channel T) (d : CompileTimeOneshot.Channel T)
    (hc : c.ready = false) (hd : d.ready = false) :
    c.receive.2 = RecvResult.panicked PanicMsg.noMessageAvailable ∧
    (∀ x : T, c.receive.2 ≠ RecvResult.ok x) ∧
    (SaferOneshot.Channel.new T).receive.2
      = RecvResult.panicked PanicMsg.noMessageAvailable ∧
    ((((SaferOneshot.Channel.new T).send v).1.receive).1).receive.2
      = RecvResult.panicked PanicMsg.noMessageAvailable ∧
    (CompileTimeOneshot.Receiver.receive d).2
      = RecvResult.panicked PanicMsg.noMessageAvailable ∧
    (∀ x : T, (CompileTimeOneshot.Receiver.receive d).2 ≠ RecvResult.ok x) ∧
    (CompileTimeOneshot.Receiver.receive
      ((CompileTimeOneshot.Receiver.receive
        (CompileTimeOneshot.Sender.send (CompileTimeOneshot.channel T) v)).1)).2
      = RecvResult.panicked PanicMsg.noMessageAvailable := by
  have h1 : c.receive.2 = RecvResult.panicked PanicMsg.noMessageAvailable := by
    simp [SaferOneshot.Channel.receive, hc]
  have h2 : (CompileTimeOneshot.Receiver.receive d).2
      = RecvResult.panicked PanicMsg.noMessageAvailable := by
    simp [CompileTimeOneshot.Receiver.receive, hd]
  refine ⟨h1, ?_, rfl, rfl, h2, ?_, rfl⟩
  · intro x
    rw [h1]
    intro hbad
    exact RecvResult.noConfusion hbad
  · intro x
    rw [h2]
    intro hbad
    exact RecvResult.noConfusion hbad

/-- Witness for claim C4 at `T := Nat` on concrete not-ready channels. -/
theorem claim_C4_witness :
    (SaferOneshot.Channel.mk (none : Option Nat) false false).receive.2
      = RecvResult.panicked PanicMsg.noMessageAvailable :=
  (claim_C4_receive_not_ready_panics Nat 0
    (SaferOneshot.Channel.mk (none : Option Nat) false false)
    (CompileTimeOneshot.Channel.mk (none : Option Nat) false) rfl rfl).1

/-- Claim C6: a panicking `send` or `receive` on the runtime-checked channel
leaves the observable channel state exactly as it was: the failing `send`
changes neither the slot nor the flags, and the failing `receive` leaves the
readiness flag `false` and the slot untouched. -/
theorem claim_C6_panic_leaves_state_unchanged (T : Type) (v : T)
    (c d : SaferOneshot.Channel T)
    (hs : (c.send v).2 = some PanicMsg.secondSend)
    (hr : d.receive.2 = RecvResult.panicked PanicMsg.noMessageAvailable) :
    (c.send v).1 = c ∧
    d.receive.1 = d ∧
    d.receive.1.ready = false ∧
    d.receive.1.message = d.message := by
  have hcu : c.in_use = true := by
    by_contra h
    have h2 : c.in_use = false := by
      cases hval : c.in_use
      · rfl
      · exact absurd hval h
    simp [SaferOneshot.Channel.send, h2] at hs
  have hdr : d.ready = false := by
    by_contra h
    have h2 : d.ready = true := by
      cases hval : d.ready
      · exact absurd hval h
      · rfl
    rcases hm : d.message with _ | x
    · simp [SaferOneshot.Channel.receive, h2, hm] at hr
    · simp [SaferOneshot.Channel.receive, h2, hm] at hr
  refine ⟨?_, SaferOneshot.receive_not_ready_state d hdr, rfl, rfl⟩
  have := SaferOneshot.send_in_use_true c v hcu
  rw [this]

/-- Witness for claim C6 at `T := Nat`: a second send on an already claimed
channel and a receive on a never-sent channel both leave the state unchanged. -/
theorem claim_C6_witness :
    ((SaferOneshot.Channel.mk (some 5) true true).send 7).1
      = SaferOneshot.Channel.mk (some 5) true true :=
  (claim_C6_panic_leaves_state_unchanged Nat 7
    (SaferOneshot.Channel.mk (some 5) true true)
    (SaferOneshot.Channel.mk (none : Option Nat) false false) rfl rfl).1

/-- Claim C8: the mutex-based multi-item channel: `send` always succeeds and
enqueues at the back, and `receive` on a non-empty queue returns the front —
the earliest sent, not yet received message — so a sequence of sends from a
fresh channel is received in FIFO order. -/
theorem claim_C8_mutex_fifo (T : Type) (c : MutexBased.Channel T) (v m : T)
    (rest l : List T) (h : c.queue = m :: rest) :
    (c.send v).queue = c.queue ++ [v] ∧
    (MutexBased.Channel.sendAll (MutexBased.Channel.new T) l).queue = l ∧
    c.receive = some (m, MutexBased.Channel.mk rest) := by
  refine ⟨rfl, ?_, ?_⟩
  · rw [MutexBased.sendAll_queue]
    rfl
  · simp [MutexBased.Channel.receive, h]

/-- Witness for claim C8 at `T := Nat` on a concrete two-element queue. -/
theorem claim_C8_witness :
    (MutexBased.Channel.mk [1, 2]).receive = some (1, MutexBased.Channel.mk [2]) :=
  (claim_C8_mutex_fifo Nat (MutexBased.Channel.mk [1, 2]) 3 1 [2] [4, 5] rfl).2.2

/-- Claim C9: in the runtime-checked and statically-checked variants every
operation preserves the invariant that `ready` is set only when the slot holds
a written, not yet consumed value; and after a receive (which resets the flag)
channel teardown runs the destructor zero times. -/
theorem claim_C9_invariant_preserved (T : Type) (v : T)
    (c : SaferOneshot.Channel T) (d : CompileTimeOneshot.Channel T)
    (hc : c.inv = true) (hd : d.inv = true) :
    (SaferOneshot.Channel.new T).inv = true ∧
    ((c.send v).1).inv = true ∧
    (c.receive.1).inv = true ∧
    c.receive.1.dropCount = 0 ∧
    (CompileTimeOneshot.channel T).inv = true ∧
    (CompileTimeOneshot.Sender.send d v).inv = true ∧
    ((CompileTimeOneshot.Receiver.receive d).1).inv = true ∧
    (CompileTimeOneshot.Receiver.receive d).1.dropCount = 0 := by
  refine ⟨rfl, ?_, rfl, rfl, rfl, rfl, rfl, rfl⟩
  by_cases h : c.in_use
  · simpa [SaferOneshot.Channel.send, SaferOneshot.Channel.inv, h] using hc
  · simp [SaferOneshot.Channel.send, SaferOneshot.Channel.inv, h]

/-- Witness for claim C9 at `T := Nat` on concrete invariant-satisfying
channels. -/
theorem claim_C9_witness :
    ((SaferOneshot.Channel.mk (some 3) false true).receive.1).inv = true :=
  (claim_C9_invariant_preserved Nat 0
    (SaferOneshot.Channel.mk (some 3) false true)
    (CompileTimeOneshot.Channel.mk (some 4) true) rfl rfl).2.2.1
